import Mathlib

/-!
Verification of the retransmission-timing and connection-resource-sizing
subsystem of the GNRC TCP implementation, against its configuration header
`sys/include/net/gnrc/tcp/config.h`.

The header defines the default configuration constants (all durations in
microseconds) and documents the RFC 6298 RTO recurrence they parameterize.
The constants below are translated directly from the `#define` defaults.
The behavioral components (RTO estimator, receive-buffer admission) are not
part of the configuration header; they are modelled from the specification,
as marked on each definition.
-/

/-- Microseconds per second, from RIOT `timex.h` (`US_PER_SEC`). -/
def US_PER_SEC : Nat := 1000000

/-- Milliseconds per second, from RIOT `timex.h` (`MS_PER_SEC`). -/
def MS_PER_SEC : Nat := 1000

/-- Timeout duration for user calls, default 2 minutes (microseconds). -/
def CONFIG_GNRC_TCP_CONNECTION_TIMEOUT_DURATION : Nat := 120 * US_PER_SEC

/-- Maximum segment lifetime, default 30 seconds (microseconds). -/
def CONFIG_GNRC_TCP_MSL : Nat := 30 * US_PER_SEC

/-- Maximum segment size: 1220 bytes when `MODULE_GNRC_IPV6` is compiled in,
576 bytes otherwise.  The compile-time `#ifdef` branch is modelled as an
explicit boolean argument. -/
def CONFIG_GNRC_TCP_MSS (ipv6 : Bool) : Nat := if ipv6 then 1220 else 576

/-- MSS multiplicator: number of MSS sized packets stored in receive buffer. -/
def CONFIG_GNRC_TCP_MSS_MULTIPLICATOR : Nat := 1

/-- Default receive window size: `MSS * MSS_MULTIPLICATOR`. -/
def CONFIG_GNRC_TCP_DEFAULT_WINDOW (ipv6 : Bool) : Nat :=
  CONFIG_GNRC_TCP_MSS ipv6 * CONFIG_GNRC_TCP_MSS_MULTIPLICATOR

/-- Number of preallocated receive buffers: bounds concurrent connections. -/
def CONFIG_GNRC_TCP_RCV_BUFFERS : Nat := 1

/-- Default receive buffer size: equals the default window. -/
def GNRC_TCP_RCV_BUF_SIZE (ipv6 : Bool) : Nat := CONFIG_GNRC_TCP_DEFAULT_WINDOW ipv6

/-- Lower bound for RTO = 1 sec (microseconds). -/
def CONFIG_GNRC_TCP_RTO_LOWER_BOUND : Nat := 1 * US_PER_SEC

/-- Upper bound for RTO = 60 sec (microseconds). -/
def CONFIG_GNRC_TCP_RTO_UPPER_BOUND : Nat := 60 * US_PER_SEC

/-- Assumed clock granularity for TCP of 10 ms: `10U * MS_PER_SEC`,
i.e. 10000, which read in microseconds is 10 ms. -/
def CONFIG_GNRC_TCP_RTO_GRANULARITY : Nat := 10 * MS_PER_SEC

/-- Alpha divisor for RTO calculation: alpha = 1/8. -/
def CONFIG_GNRC_TCP_RTO_A_DIV : Nat := 8

/-- Beta divisor for RTO calculation: beta = 1/4. -/
def CONFIG_GNRC_TCP_RTO_B_DIV : Nat := 4

/-- K value for RTO calculation, default 4. -/
def CONFIG_GNRC_TCP_RTO_K : Nat := 4

/-- Lower bound for the duration between probes (microseconds). -/
def CONFIG_GNRC_TCP_PROBE_LOWER_BOUND : Nat := 1 * US_PER_SEC

/-- Upper bound for the duration between probes (microseconds). -/
def CONFIG_GNRC_TCP_PROBE_UPPER_BOUND : Nat := 60 * US_PER_SEC

/-- Exponent of the TCP API internal message queue size: queue has 2^n elements. -/
def CONFIG_GNRC_TCP_MSG_QUEUE_SIZE_EXP : Nat := 2

/-- Exponent of the TCP eventloop message queue size: queue has 2^n elements. -/
def CONFIG_GNRC_TCP_EVENTLOOP_MSG_QUEUE_SIZE_EXP : Nat := 3

/-- Modelled from the spec: the number of elements of the TCP API internal
message queue.  The header note states the element count must be a power of
two and that the configuration value is the exponent of 2^n; the code that
instantiates the queue is not under src/. -/
def GNRC_TCP_MSG_QUEUE_SIZE : Nat := 2 ^ CONFIG_GNRC_TCP_MSG_QUEUE_SIZE_EXP

/-- Modelled from the spec: the number of elements of the TCP eventloop
message queue, 2^n for the configured exponent n (see the header note). -/
def GNRC_TCP_EVENTLOOP_MSG_QUEUE_SIZE : Nat :=
  2 ^ CONFIG_GNRC_TCP_EVENTLOOP_MSG_QUEUE_SIZE_EXP

/-- Modelled from the spec: the validated RTO estimator configuration
(durations as exact rationals, in microseconds).  The estimator
implementation itself is not under src/; only the configuration header is. -/
structure RtoConfig where
  rto_lower_bound : ℚ
  rto_upper_bound : ℚ
  rto_granularity : ℚ
  alpha_divisor : ℚ
  beta_divisor : ℚ
  k : ℚ

/-- Modelled from the spec: per-connection timing state.  `srtt` is unset
until the first RTT sample; `rttvar` is meaningful only once `srtt` is set;
`rto` is the current retransmission timeout. -/
structure TimingState where
  srtt : Option ℚ
  rttvar : ℚ
  rto : ℚ

/-- Clamp a raw RTO value into the closed interval
[rto_lower_bound, rto_upper_bound]. -/
def clampRto (cfg : RtoConfig) (x : ℚ) : ℚ :=
  max cfg.rto_lower_bound (min cfg.rto_upper_bound x)

/-- Derived RTO per RFC 6298 as documented in the configuration header:
`RTO <- SRTT + max (G, K*RTTVAR)`, then clamped into the configured bounds. -/
def deriveRto (cfg : RtoConfig) (srtt rttvar : ℚ) : ℚ :=
  clampRto cfg (srtt + max cfg.rto_granularity (cfg.k * rttvar))

/-- Modelled from the spec: timing state of a freshly admitted connection,
before any RTT sample; the stored `rto` starts at the configured floor. -/
def initialState (cfg : RtoConfig) : TimingState :=
  ⟨none, 0, cfg.rto_lower_bound⟩

/-- Modelled from the spec: `sample(rtt_observation)` of the RTO estimator.
First sample: `srtt := R`, `rttvar := R / 2`.  Subsequent samples:
`rttvar := (1 - beta) * rttvar + beta * |srtt - R|` followed by
`srtt := (1 - alpha) * srtt + alpha * R` (rttvar reads the previous srtt),
with `alpha = 1/alpha_divisor`, `beta = 1/beta_divisor`.  The stored rto is
the derived RTO of the updated estimators. -/
def sample (cfg : RtoConfig) (s : TimingState) (r : ℚ) : TimingState :=
  match s.srtt with
  | none =>
      let srtt := r
      let rttvar := r / 2
      ⟨some srtt, rttvar, deriveRto cfg srtt rttvar⟩
  | some srtt0 =>
      let beta := 1 / cfg.beta_divisor
      let alpha := 1 / cfg.alpha_divisor
      let rttvar := (1 - beta) * s.rttvar + beta * |srtt0 - r|
      let srtt := (1 - alpha) * srtt0 + alpha * r
      ⟨some srtt, rttvar, deriveRto cfg srtt rttvar⟩

/-- Run a sequence of RTT samples through the estimator. -/
def runSamples (cfg : RtoConfig) (s : TimingState) (rs : List ℚ) : TimingState :=
  rs.foldl (sample cfg) s

/-- The current RTO read by the state machine when scheduling retransmission. -/
def current_rto (s : TimingState) : ℚ := s.rto

/-- The default configuration of the header, as an estimator configuration. -/
def defaultRtoConfig : RtoConfig :=
  ⟨(CONFIG_GNRC_TCP_RTO_LOWER_BOUND : ℚ), (CONFIG_GNRC_TCP_RTO_UPPER_BOUND : ℚ),
   (CONFIG_GNRC_TCP_RTO_GRANULARITY : ℚ), (CONFIG_GNRC_TCP_RTO_A_DIV : ℚ),
   (CONFIG_GNRC_TCP_RTO_B_DIV : ℚ), (CONFIG_GNRC_TCP_RTO_K : ℚ)⟩

/-- Modelled from the spec: state of one receive-buffer slot, either free or
owned by the connection identified by `cid`. -/
inductive SlotState where
  | Free
  | Owned (cid : Nat)
deriving DecidableEq

/-- Whether a slot is free. -/
def SlotState.isFree : SlotState → Bool
  | SlotState.Free => true
  | SlotState.Owned _ => false

/-- Modelled from the spec: the fixed-capacity receive buffer pool, one slot
state per preallocated buffer. -/
structure BufferPool where
  slots : List SlotState
deriving DecidableEq

/-- Index of the first free slot of a pool, if any. -/
def findFree : List SlotState → Option Nat
  | [] => none
  | s :: rest =>
    match s with
    | SlotState.Free => some 0
    | SlotState.Owned _ => Option.map (fun i => i + 1) (findFree rest)

/-- Modelled from the spec: `try_admit() -> Slot | Rejected`.  Succeeds iff
a free slot exists; on success atomically transitions that slot to Owned and
returns its index; on failure (pool exhausted, the ResourceExhausted error,
encoded as `none`) leaves the pool unchanged. -/
def try_admit (cid : Nat) (p : BufferPool) : Option Nat × BufferPool :=
  match findFree p.slots with
  | some i => (some i, ⟨p.slots.set i (SlotState.Owned cid)⟩)
  | none => (none, p)

/-- Modelled from the spec: `release(slot)` transitions an Owned slot back
to Free; releasing an already-free (or absent) slot is a signaled error,
encoded as `none`. -/
def release (p : BufferPool) (i : Nat) : Option BufferPool :=
  match p.slots.get? i with
  | some (SlotState.Owned _) => some ⟨p.slots.set i SlotState.Free⟩
  | _ => none

/-- Number of free slots of a pool. -/
def countFree (p : BufferPool) : Nat := p.slots.countP SlotState.isFree

/-- An entirely free pool of n slots. -/
def freePool (n : Nat) : BufferPool := ⟨List.replicate n SlotState.Free⟩

/-- Claim C6: the RTO clock-granularity constant `10U * MS_PER_SEC` evaluates
to 10000, which in the microsecond unit shared by the other duration
constants is exactly 10 milliseconds (10 * US_PER_SEC / MS_PER_SEC). -/
theorem rto_granularity_is_ten_ms :
    CONFIG_GNRC_TCP_RTO_GRANULARITY = 10 * MS_PER_SEC
    ∧ CONFIG_GNRC_TCP_RTO_GRANULARITY = 10000
    ∧ CONFIG_GNRC_TCP_RTO_GRANULARITY = 10 * (US_PER_SEC / MS_PER_SEC) := by
  decide

/-- Claim C7: the default MSS is 1220 bytes with the IPv6 module compiled in
and 576 bytes otherwise. -/
theorem mss_default_values :
    CONFIG_GNRC_TCP_MSS true = 1220 ∧ CONFIG_GNRC_TCP_MSS false = 576 := by
  decide

/-- Claim C8: the default advertised receive window equals mss times the
buffer multiplier (default 1), and every receive buffer slot has exactly the
window size, hence under defaults each slot is mss bytes. -/
theorem default_window_and_buf_size :
    ∀ ipv6 : Bool,
      CONFIG_GNRC_TCP_DEFAULT_WINDOW ipv6
        = CONFIG_GNRC_TCP_MSS ipv6 * CONFIG_GNRC_TCP_MSS_MULTIPLICATOR
      ∧ CONFIG_GNRC_TCP_MSS_MULTIPLICATOR = 1
      ∧ GNRC_TCP_RCV_BUF_SIZE ipv6 = CONFIG_GNRC_TCP_DEFAULT_WINDOW ipv6
      ∧ GNRC_TCP_RCV_BUF_SIZE ipv6 = CONFIG_GNRC_TCP_MSS ipv6 := by
  decide

/-- Claim C9: both message queues have a power-of-two number of elements,
with defaults 2^2 = 4 elements (API internal queue) and 2^3 = 8 elements
(eventloop queue). -/
theorem msg_queue_sizes_are_powers_of_two :
    GNRC_TCP_MSG_QUEUE_SIZE = 2 ^ CONFIG_GNRC_TCP_MSG_QUEUE_SIZE_EXP
    ∧ GNRC_TCP_EVENTLOOP_MSG_QUEUE_SIZE
        = 2 ^ CONFIG_GNRC_TCP_EVENTLOOP_MSG_QUEUE_SIZE_EXP
    ∧ GNRC_TCP_MSG_QUEUE_SIZE = 4
    ∧ GNRC_TCP_EVENTLOOP_MSG_QUEUE_SIZE = 8 := by
  decide

/-- The clamped RTO lies in the configured interval whenever the
configuration is valid (lower bound at most upper bound). -/
lemma clampRto_mem (cfg : RtoConfig)
    (h : cfg.rto_lower_bound ≤ cfg.rto_upper_bound) (x : ℚ) :
    cfg.rto_lower_bound ≤ clampRto cfg x ∧ clampRto cfg x ≤ cfg.rto_upper_bound :=
  ⟨le_max_left _ _, max_le h (min_le_left _ _)⟩

/-- After any sample, the stored rto is a clamped value. -/
lemma sample_rto_isClamped (cfg : RtoConfig) (s : TimingState) (r : ℚ) :
    ∃ x, (sample cfg s r).rto = clampRto cfg x := by
  cases hs : s.srtt with
  | none =>
      refine ⟨r + max cfg.rto_granularity (cfg.k * (r / 2)), ?_⟩
      simp [sample, hs, deriveRto]
  | some w =>
      refine ⟨(1 - 1 / cfg.alpha_divisor) * w + (1 / cfg.alpha_divisor) * r
        + max cfg.rto_granularity
            (cfg.k * ((1 - 1 / cfg.beta_divisor) * s.rttvar
              + (1 / cfg.beta_divisor) * |w - r|)), ?_⟩
      simp [sample, hs, deriveRto]

/-- After any sample, the stored rto is the derived RTO of the stored
estimators: the clamp of srtt plus max(granularity, k * rttvar). -/
lemma sample_rto_formula (cfg : RtoConfig) (s : TimingState) (r : ℚ) :
    ∀ v, (sample cfg s r).srtt = some v →
      (sample cfg s r).rto
        = clampRto cfg (v + max cfg.rto_granularity
            (cfg.k * (sample cfg s r).rttvar)) := by
  intro v hv
  cases hs : s.srtt with
  | none =>
      simp only [sample, hs, Option.some.injEq] at hv ⊢
      subst hv
      rfl
  | some w =>
      simp only [sample, hs, Option.some.injEq] at hv ⊢
      subst hv
      rfl

/-- The derived-RTO formula is an invariant of sample runs. -/
lemma runSamples_rto_formula (cfg : RtoConfig) (rs : List ℚ) :
    ∀ s : TimingState,
      (∀ v, s.srtt = some v →
        s.rto = clampRto cfg (v + max cfg.rto_granularity (cfg.k * s.rttvar))) →
      ∀ v, (runSamples cfg s rs).srtt = some v →
        (runSamples cfg s rs).rto
          = clampRto cfg (v + max cfg.rto_granularity
              (cfg.k * (runSamples cfg s rs).rttvar)) := by
  induction rs with
  | nil => intro s hP; exact hP
  | cons r rs ih =>
      intro s _
      simp only [runSamples, List.foldl_cons]
      exact ih (sample cfg s r) (sample_rto_formula cfg s r)

/-- Claim C1: in every reachable connection state whose srtt is set, the
stored rto equals srtt + max(rto_granularity, k * rttvar) clamped into
[rto_lower_bound, rto_upper_bound]. -/
theorem rto_formula_of_srtt_set (cfg : RtoConfig) (rs : List ℚ) (v : ℚ)
    (h : (runSamples cfg (initialState cfg) rs).srtt = some v) :
    (runSamples cfg (initialState cfg) rs).rto
      = clampRto cfg (v + max cfg.rto_granularity
          (cfg.k * (runSamples cfg (initialState cfg) rs).rttvar)) :=
  runSamples_rto_formula cfg rs (initialState cfg)
    (fun _ hv => by simp [initialState] at hv) v h

/-- Witness for C1: one sample of 2000000 us on the default configuration
sets srtt, and the stored rto satisfies the clamped formula. -/
theorem rto_formula_of_srtt_set_witness :
    (runSamples defaultRtoConfig (initialState defaultRtoConfig)
        [(2000000 : ℚ)]).srtt = some 2000000
    ∧ (runSamples defaultRtoConfig (initialState defaultRtoConfig)
        [(2000000 : ℚ)]).rto
      = clampRto defaultRtoConfig (2000000 + max defaultRtoConfig.rto_granularity
          (defaultRtoConfig.k * (runSamples defaultRtoConfig
            (initialState defaultRtoConfig) [(2000000 : ℚ)]).rttvar)) :=
  ⟨by decide, rto_formula_of_srtt_set defaultRtoConfig [(2000000 : ℚ)] 2000000
    (by decide)⟩

/-- Bounds on the stored rto are preserved by sample runs. -/
lemma runSamples_rto_bounds (cfg : RtoConfig)
    (h : cfg.rto_lower_bound ≤ cfg.rto_upper_bound) (rs : List ℚ) :
    ∀ s : TimingState,
      cfg.rto_lower_bound ≤ s.rto → s.rto ≤ cfg.rto_upper_bound →
      cfg.rto_lower_bound ≤ (runSamples cfg s rs).rto
      ∧ (runSamples cfg s rs).rto ≤ cfg.rto_upper_bound := by
  induction rs with
  | nil => intro s h1 h2; exact ⟨h1, h2⟩
  | cons r rs ih =>
      intro s _ _
      simp only [runSamples, List.foldl_cons]
      obtain ⟨x, hx⟩ := sample_rto_isClamped cfg s r
      have hm := clampRto_mem cfg h x
      exact ih (sample cfg s r) (hx ▸ hm.1) (hx ▸ hm.2)

/-- Claim C2: for every valid configuration and every reachable connection
state, current_rto() lies in [rto_lower_bound, rto_upper_bound]. -/
theorem current_rto_within_bounds (cfg : RtoConfig)
    (h : cfg.rto_lower_bound ≤ cfg.rto_upper_bound) (rs : List ℚ) :
    cfg.rto_lower_bound ≤ current_rto (runSamples cfg (initialState cfg) rs)
    ∧ current_rto (runSamples cfg (initialState cfg) rs)
        ≤ cfg.rto_upper_bound :=
  runSamples_rto_bounds cfg h rs (initialState cfg) (le_refl _) h

/-- Witness for C2: the default configuration is valid and the rto after a
sample of 250000 us stays in bounds. -/
theorem current_rto_within_bounds_witness :
    defaultRtoConfig.rto_lower_bound ≤ defaultRtoConfig.rto_upper_bound
    ∧ (defaultRtoConfig.rto_lower_bound
        ≤ current_rto (runSamples defaultRtoConfig
            (initialState defaultRtoConfig) [(250000 : ℚ)])
      ∧ current_rto (runSamples defaultRtoConfig
            (initialState defaultRtoConfig) [(250000 : ℚ)])
        ≤ defaultRtoConfig.rto_upper_bound) :=
  ⟨by decide, current_rto_within_bounds defaultRtoConfig (by decide)
    [(250000 : ℚ)]⟩

/-- Claim C3: on a state with srtt already set, sample updates rttvar from
the previous srtt and the previous rttvar (beta = 1/beta_divisor), and only
then srtt from the previous srtt (alpha = 1/alpha_divisor). -/
theorem rttvar_update_uses_previous_srtt (cfg : RtoConfig) (s : TimingState)
    (r v : ℚ) (h : s.srtt = some v) :
    (sample cfg s r).rttvar
      = (1 - 1 / cfg.beta_divisor) * s.rttvar + (1 / cfg.beta_divisor) * |v - r|
    ∧ (sample cfg s r).srtt
      = some ((1 - 1 / cfg.alpha_divisor) * v + (1 / cfg.alpha_divisor) * r) := by
  constructor
  · simp [sample, h]
  · simp [sample, h]

/-- Witness for C3: a second sample of 3 us on a state with srtt = 2 us and
rttvar = 1 us follows the recurrence with the previous srtt. -/
theorem rttvar_update_uses_previous_srtt_witness :
    (⟨some 2, 1, 1⟩ : TimingState).srtt = some 2
    ∧ ((sample defaultRtoConfig ⟨some 2, 1, 1⟩ 3).rttvar
        = (1 - 1 / defaultRtoConfig.beta_divisor)
            * (⟨some 2, 1, 1⟩ : TimingState).rttvar
          + (1 / defaultRtoConfig.beta_divisor) * |(2 : ℚ) - 3|
      ∧ (sample defaultRtoConfig ⟨some 2, 1, 1⟩ 3).srtt
        = some ((1 - 1 / defaultRtoConfig.alpha_divisor) * 2
          + (1 / defaultRtoConfig.alpha_divisor) * 3)) :=
  ⟨rfl, rttvar_update_uses_previous_srtt defaultRtoConfig ⟨some 2, 1, 1⟩ 3 2 rfl⟩

/-- Claim C4: the first RTT sample R sets srtt = R and rttvar = R/2, and the
stored rto is srtt + max(rto_granularity, k * rttvar) clamped into the
configured bounds. -/
theorem first_sample_sets_estimators (cfg : RtoConfig) (r : ℚ) :
    (sample cfg (initialState cfg) r).srtt = some r
    ∧ (sample cfg (initialState cfg) r).rttvar = r / 2
    ∧ (sample cfg (initialState cfg) r).rto
        = clampRto cfg (r + max cfg.rto_granularity (cfg.k * (r / 2))) := by
  refine ⟨?_, ?_, ?_⟩ <;> simp [sample, initialState, deriveRto]

/-- Claim C10: under the default configuration the granularity term (10000
us) is strictly below the RTO floor (1000000 us), so a zero-estimator RTO
derived from granularity alone still clamps up to the lower bound. -/
theorem granularity_below_rto_lower_bound :
    CONFIG_GNRC_TCP_RTO_GRANULARITY < CONFIG_GNRC_TCP_RTO_LOWER_BOUND
    ∧ CONFIG_GNRC_TCP_RTO_GRANULARITY = 10000
    ∧ CONFIG_GNRC_TCP_RTO_LOWER_BOUND = 1000000
    ∧ deriveRto defaultRtoConfig 0 0 = defaultRtoConfig.rto_lower_bound := by
  refine ⟨by decide, by decide, by decide, ?_⟩
  norm_num [deriveRto, clampRto, defaultRtoConfig, CONFIG_GNRC_TCP_RTO_LOWER_BOUND,
    CONFIG_GNRC_TCP_RTO_UPPER_BOUND, CONFIG_GNRC_TCP_RTO_GRANULARITY,
    CONFIG_GNRC_TCP_RTO_K, US_PER_SEC, MS_PER_SEC]

/-- The first-free search fails exactly when no slot is free. -/
lemma findFree_eq_none (l : List SlotState) :
    findFree l = none ↔ l.countP SlotState.isFree = 0 := by
  induction l with
  | nil => simp [findFree]
  | cons s rest ih =>
      cases s with
      | Free => simp [findFree, List.countP_cons, SlotState.isFree]
      | Owned c =>
          simp [findFree, List.countP_cons, SlotState.isFree,
            Option.map_eq_none', ih]

/-- The first-free search returns the index of a free slot. -/
lemma findFree_get (l : List SlotState) :
    ∀ i, findFree l = some i → l.get? i = some SlotState.Free := by
  induction l with
  | nil => intro i h; simp [findFree] at h
  | cons s rest ih =>
      intro i h
      cases s with
      | Free =>
          simp [findFree] at h
          subst h
          rfl
      | Owned c =>
          simp only [findFree, Option.map_eq_some'] at h
          obtain ⟨j, hj, rfl⟩ := h
          simpa using ih j hj

/-- A pool holding a free slot has a positive free count. -/
lemma countP_pos_of_get (l : List SlotState) :
    ∀ i, l.get? i = some SlotState.Free → 0 < l.countP SlotState.isFree := by
  intro i h
  rw [List.countP_pos_iff]
  exact ⟨SlotState.Free, List.get?_mem h, rfl⟩

/-- Occupying a free slot decrements the free count by one. -/
lemma countP_set_owned (l : List SlotState) :
    ∀ i cid, l.get? i = some SlotState.Free →
      (l.set i (SlotState.Owned cid)).countP SlotState.isFree
        = l.countP SlotState.isFree - 1 := by
  induction l with
  | nil => intro i cid h; simp at h
  | cons s rest ih =>
      intro i cid h
      cases i with
      | zero =>
          simp at h
          subst h
          simp [List.set, List.countP_cons, SlotState.isFree]
      | succ j =>
          have hp := countP_pos_of_get rest j (by simpa using h)
          have hr := ih j cid (by simpa using h)
          cases hsf : SlotState.isFree s <;>
            simp [List.set, List.countP_cons, hsf, hr]
          omega

/-- Freeing an owned slot increments the free count by one. -/
lemma countP_set_free (l : List SlotState) :
    ∀ i c, l.get? i = some (SlotState.Owned c) →
      (l.set i SlotState.Free).countP SlotState.isFree
        = l.countP SlotState.isFree + 1 := by
  induction l with
  | nil => intro i c h; simp at h
  | cons s rest ih =>
      intro i c h
      cases i with
      | zero =>
          simp at h
          subst h
          simp [List.set, List.countP_cons, SlotState.isFree]
      | succ j =>
          have hr := ih j c (by simpa using h)
          cases hsf : SlotState.isFree s <;>
            simp [List.set, List.countP_cons, hsf, hr]

/-- A fresh pool of n slots has n free slots. -/
lemma countFree_freePool (n : Nat) : countFree (freePool n) = n := by
  induction n with
  | zero => rfl
  | succ m ih =>
      simp only [freePool, countFree, List.replicate_succ,
        List.countP_cons] at ih ⊢
      simp [SlotState.isFree, ih]

/-- Claim C5: a fresh pool of buffer_count slots (default buffer_count = 1)
admits exactly buffer_count consecutive connections: each admission on a
pool with a free slot succeeds and decrements the free count by one, an
admission on an exhausted pool returns ResourceExhausted (`none`) with the
pool unchanged, and one release restores exactly one free slot, permitting
exactly one further admission. -/
theorem try_admit_exhaustion_and_release :
    (∀ n, countFree (freePool n) = n)
    ∧ countFree (freePool CONFIG_GNRC_TCP_RCV_BUFFERS) = 1
    ∧ (∀ cid p, 0 < countFree p →
        ∃ i p', try_admit cid p = (some i, p')
          ∧ countFree p' = countFree p - 1)
    ∧ (∀ cid p, countFree p = 0 → try_admit cid p = (none, p))
    ∧ (∀ p i p', release p i = some p' →
        countFree p' = countFree p + 1) := by
  refine ⟨countFree_freePool, countFree_freePool CONFIG_GNRC_TCP_RCV_BUFFERS,
    ?_, ?_, ?_⟩
  · intro cid p hp
    cases hf : findFree p.slots with
    | none =>
        rw [findFree_eq_none] at hf
        simp only [countFree] at hp
        omega
    | some i =>
        refine ⟨i, ⟨p.slots.set i (SlotState.Owned cid)⟩, ?_, ?_⟩
        · simp [ try_admit, hf]
        · have hg := findFree_get p.slots i hf
          simpa [countFree] using countP_set_owned p.slots i cid hg
  · intro cid p h0
    have hf : findFree p.slots = none :=
      (findFree_eq_none p.slots).mpr (by simpa [countFree] using h0)
    simp [ try_admit, hf]
  · intro p i p' hrel
    unfold release at hrel
    cases hg : p.slots.get? i with
    | none => rw [hg] at hrel; simp at hrel
    | some s =>
        cases s with
        | Free => rw [hg] at hrel; simp at hrel
        | Owned c =>
            rw [hg] at hrel
            simp only [Option.some.injEq] at hrel
            subst hrel
            simpa [countFree] using countP_set_free p.slots i c hg

/-- Witness for C5: the default pool of one buffer has a free slot, and the
admission on it succeeds, leaving no free slot. -/
theorem try_admit_exhaustion_and_release_witness :
    0 < countFree (freePool CONFIG_GNRC_TCP_RCV_BUFFERS)
    ∧ ∃ i p', try_admit 0 (freePool CONFIG_GNRC_TCP_RCV_BUFFERS) = (some i, p')
        ∧ countFree p' = countFree (freePool CONFIG_GNRC_TCP_RCV_BUFFERS) - 1 :=
  ⟨by decide, try_admit_exhaustion_and_release.2.2.1 0
    (freePool CONFIG_GNRC_TCP_RCV_BUFFERS) (by decide)⟩
